import Mathlib

/-!
Verification of the port-scanner backend (src/backend/port_security_scanner.py
and src/backend/app.py) against its natural-language specification.

The Python code is shallowly embedded: pure parsing and classification
functions become Lean functions on lists; the orchestration coroutines
(run_port_scan, run_security_action) become pure trace generators over an
explicit environment recording the results of the external calls they make;
the process-wide operation dictionary becomes a finite map; the WebSocket
connection manager becomes a list of observer identifiers with a fault
predicate standing for a delivery error.
-/

namespace PortScanner

/-! ## Scan Driver: run_nmap_scan (port_security_scanner.py lines 244-279)

The Python parses result.stdout.split newline by newline, matching each line
against the regular expression of digits, then the literal "/tcp", then one
or more whitespace characters, then the literal "open", anchored at the
start of the line; each match appends int(digits) to the accumulator. -/

/-- A whitespace character in the sense of the regex class used by the code
(space, tab, newline, carriage return, vertical tab, form feed). -/
def isSpaceChar (c : Char) : Bool :=
  c = ' ' || c = '\t' || c = '\n' || c = '\r' || c = '\x0b' || c = '\x0c'

/-- Numeric value of a digit string, as Python int() of the matched group. -/
def digitsToNat (ds : List Char) : Nat :=
  ds.foldl (fun a c => a * 10 + (c.toNat - 48)) 0

/-- The line pattern of run_nmap_scan: start of line, one or more digits,
"/tcp", one or more whitespace characters, then "open"; returns the port
number on a match and none otherwise. -/
def matchPortLine (line : List Char) : Option Nat :=
  let ds := line.takeWhile Char.isDigit
  if ds.isEmpty then none
  else
    match line.drop ds.length with
    | '/' :: 't' :: 'c' :: 'p' :: rest =>
      let ws := rest.takeWhile isSpaceChar
      if ws.isEmpty then none
      else if (rest.drop ws.length).take 4 = ['o', 'p', 'e', 'n'] then
        some (digitsToNat ds)
      else none
    | _ => none

/-- Python str.split on a newline: always at least one (possibly empty) line. -/
def splitLines : List Char → List (List Char)
  | [] => [[]]
  | c :: rest =>
    if c = '\n' then [] :: splitLines rest
    else
      match splitLines rest with
      | [] => [[c]]
      | l :: ls => (c :: l) :: ls

/-- The accumulating loop of run_nmap_scan: for each line, append the matched
port to open_ports when the pattern matches, otherwise continue. -/
def nmapLoop : List (List Char) → List Nat → List Nat
  | [], acc => acc
  | l :: ls, acc =>
    match matchPortLine l with
    | some p => nmapLoop ls (acc ++ [p])
    | none => nmapLoop ls acc

/-- Parse nmap stdout lines into the open-port list, as run_nmap_scan does. -/
def parseNmapLines (lines : List (List Char)) : List Nat :=
  nmapLoop lines []

/-- The distinct ways the external nmap invocation can come back to
run_nmap_scan: wall-clock timeout, missing binary, non-zero exit with
stderr, or a normal exit with stdout. -/
inductive NmapOutcome where
  | timeout
  | toolMissing
  | exitNonzero (stderr : List Char)
  | success (stdout : List Char)
deriving DecidableEq, Repr

/-- run_nmap_scan as a function of the tool outcome: every failure arm
returns the empty list, a normal exit returns the parsed ports. -/
def run_nmap_scan : NmapOutcome → List Nat
  | .timeout => []
  | .toolMissing => []
  | .exitNonzero _ => []
  | .success out => parseNmapLines (splitLines out)

/-! ## Port Classifier (port_security_scanner.py lines 29-43, 281-293;
app.py lines 192-201) -/

/-- The vulnerable_ports catalog of the scanner constructor: port to
(service, description). -/
def vulnerable_ports (p : Nat) : Option (String × String) :=
  if p = 21 then some ("FTP", "File Transfer Protocol - often unsecured")
  else if p = 23 then some ("Telnet", "Telnet - unencrypted remote access")
  else if p = 445 then some ("SMB", "Server Message Block - potential for SMB exploits")
  else if p = 3389 then some ("RDP", "Remote Desktop Protocol - common attack vector")
  else if p = 22 then some ("SSH", "Secure Shell - needs proper configuration")
  else if p = 80 then some ("HTTP", "HTTP - web server vulnerabilities")
  else if p = 443 then some ("HTTPS", "HTTPS - SSL/TLS vulnerabilities")
  else if p = 1433 then some ("MSSQL", "Microsoft SQL Server - database vulnerabilities")
  else if p = 3306 then some ("MySQL", "MySQL - database vulnerabilities")
  else if p = 5432 then some ("PostgreSQL", "PostgreSQL - database vulnerabilities")
  else if p = 5900 then some ("VNC", "VNC - remote desktop vulnerabilities")
  else if p = 6379 then some ("Redis", "Redis - in-memory database vulnerabilities")
  else if p = 27017 then some ("MongoDB", "MongoDB - NoSQL database vulnerabilities")
  else none

/-- One element of the list identify_vulnerable_ports returns. -/
structure VulnEntry where
  port : Nat
  service : String
  description : String
deriving DecidableEq, Repr

/-- The accumulating loop of identify_vulnerable_ports. -/
def identifyLoop : List Nat → List VulnEntry → List VulnEntry
  | [], acc => acc
  | p :: ps, acc =>
    match vulnerable_ports p with
    | some sd => identifyLoop ps (acc ++ [⟨p, sd.1, sd.2⟩])
    | none => identifyLoop ps acc

/-- identify_vulnerable_ports: one entry per input port found in the
catalog, in input order; non-catalog ports are skipped. -/
def identify_vulnerable_ports (open_ports : List Nat) : List VulnEntry :=
  identifyLoop open_ports []

/-- The fixed high-risk port list of app.py line 194. -/
def high_risk_ports : List Nat :=
  [21, 23, 445, 3389, 1433, 3306, 5432, 5900, 6379, 27017]

/-- The risk tier computation of app.py line 194. -/
def risk_level (p : Nat) : String :=
  if p ∈ high_risk_ports then "High" else "Medium"

/-- A VulnerabilityInfo record as app.py builds it from a catalog entry. -/
structure VulnerabilityInfo where
  port : Nat
  service : String
  description : String
  risk_level : String
  vstatus : String
deriving DecidableEq, Repr

/-- The loop of run_port_scan (app.py lines 192-201) turning catalog entries
into VulnerabilityInfo records tagged with their risk tier. -/
def build_vuln_info (vulns : List VulnEntry) : List VulnerabilityInfo :=
  vulns.map fun v => ⟨v.port, v.service, v.description, risk_level v.port, "detected"⟩

/-! ## Orchestrator traces (app.py run_port_scan lines 131-248 and
run_security_action lines 251-367)

Each coroutine is embedded as a pure generator of the ordered list of its
externally visible effects: writes to the active_operations dictionary,
WebSocket broadcasts, and calls into the scanner.  The results of the
external calls are supplied by an environment value. -/

/-- Operation status strings used by app.py. -/
inductive Status where
  | running
  | completed
  | failed
deriving DecidableEq, Repr

/-- A broadcast WebSocket event: its type string, status, optional progress
field, message, and optional success flag (timestamps are omitted: the code
stamps every event with the wall clock, which carries no ordering logic). -/
structure Event where
  etype : String
  status : Status
  progress : Option Nat
  message : String
  success : Option Bool
deriving DecidableEq, Repr

/-- A write to the active_operations entry of the running operation: the
status and message are written on every path; progress is some p when the
write touches the progress field and none when it leaves it unchanged. -/
structure RegWrite where
  status : Status
  progress : Option Nat
  message : String
  success : Option Bool
deriving DecidableEq, Repr

/-- One externally visible step of an orchestrator coroutine. -/
inductive Effect where
  | reg (w : RegWrite)
  | bcast (e : Event)
  | call (fn : String) (args : List String)
deriving DecidableEq, Repr

/-- The trace of run_port_scan as a function of the nmap outcome:
initial registry write and broadcast at progress 0, the progress-25
broadcast, the scan call, then either the empty-result failure path or the
progress-50 broadcast, classification, and the completion write/event. -/
def runPortScanTrace (target : String) (outcome : NmapOutcome) : List Effect :=
  let openPorts := run_nmap_scan outcome
  [Effect.reg ⟨.running, some 0, "Starting port scan...", none⟩,
   Effect.bcast ⟨"scan_update", .running, some 0, "Starting port scan...", none⟩,
   Effect.bcast ⟨"scan_update", .running, some 25,
     "Scanning " ++ target ++ " with Nmap...", none⟩,
   Effect.call "run_nmap_scan" [target]]
  ++ (if openPorts.isEmpty then
    [Effect.reg ⟨.failed, none, "No open ports found or scan failed", none⟩,
     Effect.bcast ⟨"scan_complete", .failed, none,
       "No open ports found or scan failed", none⟩]
  else
    let vulns := build_vuln_info (identify_vulnerable_ports openPorts)
    let doneMsg := "Scan completed. Found " ++ Nat.repr vulns.length ++ " vulnerable ports."
    [Effect.bcast ⟨"scan_update", .running, some 50,
       "Found " ++ Nat.repr openPorts.length ++ " open ports. Analyzing vulnerabilities...", none⟩,
     Effect.call "identify_vulnerable_ports" [],
     Effect.reg ⟨.completed, some 100, doneMsg, none⟩,
     Effect.bcast ⟨"scan_complete", .completed, some 100, doneMsg, none⟩])

/-- Results of the two scanner calls an action can make: each is the
(success, message) pair returned by apply_security_update and
close_vulnerable_port for the requested port and service. -/
structure ActionEnv where
  updateResult : Bool × String
  closeResult : Bool × String
deriving DecidableEq, Repr

/-- The branch-dependent middle of run_security_action: the effects emitted
inside the if/elif chain on the action string, plus the success flag and
message it leaves behind ("skip" or any other string falls through with
success false and an empty message). -/
def actionMiddle (port : Nat) (service : String) (action : String)
    (env : ActionEnv) : List Effect × Bool × String :=
  if action = "update" then
    ([Effect.bcast ⟨"action_update", .running, some 30,
        "Downloading patches from official sources...", none⟩,
      Effect.call "apply_security_update" [Nat.repr port, service]],
     env.updateResult.1, env.updateResult.2)
  else if action = "close" then
    ([Effect.bcast ⟨"action_update", .running, some 30,
        "Closing port using multiple methods...", none⟩,
      Effect.call "close_vulnerable_port" [Nat.repr port, service]],
     env.closeResult.1, env.closeResult.2)
  else if action = "auto" then
    ([Effect.bcast ⟨"action_update", .running, some 20,
        "Applying updates and closing port...", none⟩,
      Effect.call "apply_security_update" [Nat.repr port, service],
      Effect.bcast ⟨"action_update", .running, some 60, "Closing port...", none⟩,
      Effect.call "close_vulnerable_port" [Nat.repr port, service]],
     env.updateResult.1 || env.closeResult.1,
     "Update: " ++ env.updateResult.2 ++ ", Close: " ++ env.closeResult.2)
  else ([], false, "")

/-- The trace of run_security_action: initial registry write and broadcast,
the action branch, then the final registry write and action_complete event
with status completed or failed and progress 100 or 0. -/
def runSecurityActionTrace (port : Nat) (service : String) (action : String)
    (env : ActionEnv) : List Effect :=
  let m0 := "Starting " ++ action ++ " for port " ++ Nat.repr port ++ "..."
  let mid := actionMiddle port service action env
  let success := mid.2.1
  let message := mid.2.2
  let fstatus := if success then Status.completed else Status.failed
  let progress : Nat := if success then 100 else 0
  [Effect.reg ⟨.running, some 0, m0, none⟩,
   Effect.bcast ⟨"action_update", .running, some 0, m0, none⟩]
  ++ mid.1
  ++ [Effect.reg ⟨fstatus, some progress, message, some success⟩,
      Effect.bcast ⟨"action_complete", fstatus, some progress, message, some success⟩]

/-! ## Observables of a trace -/

/-- The progress values actually written to the registry, in order. -/
def regProgressWrites (t : List Effect) : List Nat :=
  t.filterMap fun e =>
    match e with
    | .reg w => w.progress
    | _ => none

/-- The progress values written to the registry or carried by a broadcast
event, merged in trace order. -/
def mergedProgress (t : List Effect) : List Nat :=
  t.filterMap fun e =>
    match e with
    | .reg w => w.progress
    | .bcast ev => ev.progress
    | _ => none

/-- The broadcast events of a trace, in order. -/
def broadcasts (t : List Effect) : List Event :=
  t.filterMap fun e =>
    match e with
    | .bcast ev => some ev
    | _ => none

/-- The last broadcast event of a trace. -/
def finalBroadcast (t : List Effect) : Option Event :=
  (broadcasts t).getLast?

/-- The scanner calls made by a trace, in order, with their arguments. -/
def calls (t : List Effect) : List (String × List String) :=
  t.filterMap fun e =>
    match e with
    | .call fn args => some (fn, args)
    | _ => none

/-- A sequence of naturals never decreases from one element to the next. -/
def nonDecreasing : List Nat → Bool
  | [] => true
  | [_] => true
  | a :: b :: rest => decide (a ≤ b) && nonDecreasing (b :: rest)

/-- Never-ahead check: walking the trace while tracking the registry's
current progress (none before the entry exists), every broadcast carrying a
progress value must not exceed what a concurrent registry read would
return at that instant. -/
def broadcastAheadFree : List Effect → Option Nat → Bool
  | [], _ => true
  | .reg w :: rest, st =>
    broadcastAheadFree rest (match w.progress with | some p => some p | none => st)
  | .bcast ev :: rest, st =>
    (match ev.progress, st with
     | some p, some q => decide (p ≤ q)
     | some _, none => false
     | none, _ => true) && broadcastAheadFree rest st
  | .call _ _ :: rest, st => broadcastAheadFree rest st

/-- A trace never broadcasts a progress value ahead of the registry. -/
def broadcastNeverAhead (t : List Effect) : Bool :=
  broadcastAheadFree t none

/-- Every registry write is immediately followed by a broadcast event
carrying the same status, progress, message and success flag. -/
def regMirrored : List Effect → Prop
  | [] => True
  | .reg w :: rest =>
    (match rest with
     | .bcast ev :: _ =>
       ev.status = w.status ∧ ev.progress = w.progress ∧
       ev.message = w.message ∧ ev.success = w.success
     | _ => False) ∧ regMirrored rest
  | .bcast _ :: rest => regMirrored rest
  | .call _ _ :: rest => regMirrored rest

/-! ## Close tactics (port_security_scanner.py bind_port_to_prevent_usage
lines 993-1033 and close_port_linux lines 378-462) -/

/-- Outcome of the OS socket bind in bind_port_to_prevent_usage: either the
bind succeeds or it raises OSError with the given errno. -/
inductive BindOutcome where
  | ok
  | err (errno : Nat)
deriving DecidableEq, Repr

/-- bind_port_to_prevent_usage: a successful bind returns true; an OSError
returns true only for errno 10048 and false for every other errno. -/
def bind_port_to_prevent_usage : BindOutcome → Bool
  | .ok => true
  | .err e => if e = 10048 then true else false

/-- Environment of one close_port_linux run: the exit outcomes of each
external command it may issue, whether the process runs as root, and the
socket-bind outcome. -/
structure CloseLinuxEnv where
  stopUserOk : Bool
  stopSudoOk : Bool
  processes : List String
  killOk : String → Bool
  killSudoOk : String → Bool
  fuserOk : Bool
  fuserSudoOk : Bool
  isAdmin : Bool
  iptablesOk : Bool
  bindResult : BindOutcome

/-- Method 1 of close_port_linux: stop the service without sudo, falling
back to sudo; records at most one success string. -/
def serviceStopMethods (service : String) (env : CloseLinuxEnv) : List String :=
  if service = "" then []
  else if env.stopUserOk then ["stopped user service " ++ service]
  else if env.stopSudoOk then ["stopped system service " ++ service]
  else []

/-- Method 2 of close_port_linux: kill each process bound to the port
(plain kill, then sudo kill); with no known processes, fall back to fuser
(plain, then sudo). -/
def killMethods (env : CloseLinuxEnv) : List String :=
  if env.processes.isEmpty then
    if env.fuserOk then ["killed processes using fuser"]
    else if env.fuserSudoOk then ["killed processes using fuser (with sudo)"]
    else []
  else
    env.processes.filterMap fun pid =>
      if env.killOk pid then some ("killed process " ++ pid)
      else if env.killSudoOk pid then some ("killed process " ++ pid ++ " (with sudo)")
      else none

/-- close_port_linux: accumulate the success strings of the four tactic
groups (service stop, process kill, iptables when admin, placeholder bind)
and succeed exactly when at least one tactic succeeded. -/
def close_port_linux (port : Nat) (service : String) (env : CloseLinuxEnv) :
    Bool × String :=
  let ipt := if env.isAdmin && env.iptablesOk then ["blocked with iptables"] else []
  let binds :=
    if bind_port_to_prevent_usage env.bindResult then ["bound port to prevent usage"] else []
  let success_methods := serviceStopMethods service env ++ killMethods env ++ ipt ++ binds
  if success_methods.isEmpty then
    (false, "Failed to close port " ++ Nat.repr port ++
      " using any method. Root privileges may be required for full functionality.")
  else
    (true, "Port " ++ Nat.repr port ++ " closed using: " ++
      String.intercalate ", " success_methods)

/-! ## Operation Registry (app.py active_operations with get_scan_status
lines 419-425, delete_operation lines 511-518, rollback_operation lines
450-472) -/

/-- A registry entry as the endpoints read it: status, progress, message,
and the service stored by action operations (absent for scans, so
operation.get with default applies). -/
structure Operation where
  opStatus : Status
  progress : Nat
  message : String
  service : Option String
deriving DecidableEq, Repr

/-- The active_operations dictionary: a finite map from operation id. -/
abbrev Registry := String → Option Operation

/-- GET status endpoints: none models the 404 Operation-not-found reply. -/
def get_operation (r : Registry) (id : String) : Option Operation :=
  r id

/-- DELETE endpoint: delete the entry when present, none models the 404. -/
def delete_operation (r : Registry) (id : String) : Option Registry :=
  match r id with
  | some _ => some (fun k => if k = id then none else r k)
  | none => none

/-- Reply of the rollback endpoint: 404, the 400 invalid-transition
rejection, or acceptance scheduling run_security_action under the freshly
generated id with the given port, the stored service, and action auto. -/
inductive RollbackResult where
  | notFound
  | invalidTransition
  | accepted (newId : String) (port : Nat) (service : String) (action : String)
deriving DecidableEq, Repr

/-- rollback_operation: 404 on an unknown id, 400 unless the operation's
status is failed, otherwise schedule the auto action under a new id. -/
def rollback_operation (r : Registry) (opId : String) (port : Nat)
    (newId : String) : RollbackResult :=
  match r opId with
  | none => .notFound
  | some op =>
    if op.opStatus = .failed then .accepted newId port (op.service.getD "") "auto"
    else .invalidTransition

/-! ## Progress Broadcaster (app.py ConnectionManager lines 88-119)

Connections are identifiers; a fault predicate says whether sending the
current message to a connection raises. -/

/-- The broadcast loop: attempt delivery to each connection in list order,
collecting the successful deliveries and the faulting connections. -/
def broadcastLoop : List Nat → (Nat → Bool) → List Nat × List Nat
  | [], _ => ([], [])
  | c :: rest, faulty =>
    let r := broadcastLoop rest faulty
    if faulty c then (r.1, c :: r.2) else (c :: r.1, r.2)

/-- ConnectionManager.disconnect: remove the connection if subscribed. -/
def managerDisconnect (conns : List Nat) (c : Nat) : List Nat :=
  if c ∈ conns then conns.erase c else conns

/-- ConnectionManager.broadcast: attempt every connection, then disconnect
each faulting one; returns (deliveries in order, remaining connections). -/
def managerBroadcast (conns : List Nat) (faulty : Nat → Bool) :
    List Nat × List Nat :=
  let r := broadcastLoop conns faulty
  (r.1, r.2.foldl managerDisconnect conns)

/-- Broadcasting a sequence of messages: each publish runs one broadcast on
the connection set left by the previous one; returns the delivery log
(message paired with the connections it reached, in publish order) and the
final connection set. -/
def broadcastSeq : List String → List Nat → (String → Nat → Bool) →
    List (String × List Nat) × List Nat
  | [], conns, _ => ([], conns)
  | m :: ms, conns, faulty =>
    let r := managerBroadcast conns (faulty m)
    let rest := broadcastSeq ms r.2 faulty
    ((m, r.1) :: rest.1, rest.2)

/-- The messages observer o received, in publish order. -/
def deliveredTo (o : Nat) (log : List (String × List Nat)) : List String :=
  log.filterMap fun me => if o ∈ me.2 then some me.1 else none

/-! ## Concrete fixtures used by witnesses and counterexamples -/

/-- An action environment where both the update and the close call fail. -/
def envBothFail : ActionEnv :=
  ⟨(false, "update failed"), (false, "close failed")⟩

/-- An action environment where the update call succeeds. -/
def envUpdateOk : ActionEnv :=
  ⟨(true, "update ok"), (false, "close failed")⟩

/-- An idle-port close environment: no service stops, no processes, no
fuser success, no admin privilege, and a free port so the bind succeeds. -/
def idleCloseEnv : CloseLinuxEnv :=
  ⟨false, false, [], fun _ => false, fun _ => false, false, false, false, false, .ok⟩

/-- A registry holding one completed operation under id a. -/
def regSingle : Registry := fun k =>
  if k = "a" then some ⟨.completed, 100, "done", none⟩ else none

/-- A registry holding a failed action under id f and a completed one
under id c. -/
def regRb : Registry := fun k =>
  if k = "f" then some ⟨.failed, 0, "Action failed", some "SSH"⟩
  else if k = "c" then some ⟨.completed, 100, "done", some "HTTP"⟩
  else none

/-! # Helper lemmas -/

/-- The run_nmap_scan accumulator loop collects exactly the matches of the
line pattern, in line order. -/
theorem nmapLoop_eq (lines : List (List Char)) :
    ∀ acc, nmapLoop lines acc = acc ++ lines.filterMap matchPortLine := by
  induction lines with
  | nil => intro acc; simp [nmapLoop]
  | cons l ls ih =>
    intro acc
    cases h : matchPortLine l with
    | some p => simp [nmapLoop, h, ih]
    | none => simp [nmapLoop, h, ih]

/-- The identify_vulnerable_ports accumulator loop collects exactly the
catalog matches, in input order. -/
theorem identifyLoop_eq (ps : List Nat) :
    ∀ acc, identifyLoop ps acc = acc ++ ps.filterMap (fun p =>
      (vulnerable_ports p).map fun sd => (⟨p, sd.1, sd.2⟩ : VulnEntry)) := by
  induction ps with
  | nil => intro acc; simp [identifyLoop]
  | cons p ps ih =>
    intro acc
    cases h : vulnerable_ports p with
    | some sd => simp [identifyLoop, h, ih]
    | none => simp [identifyLoop, h, ih]

/-- The risk tier is the string High exactly on the high-risk list and the
string Medium exactly off it. -/
theorem risk_level_iff (p : Nat) :
    (risk_level p = "High" ↔ p ∈ high_risk_ports) ∧
    (risk_level p = "Medium" ↔ p ∉ high_risk_ports) := by
  unfold risk_level
  by_cases h : p ∈ high_risk_ports <;> simp [h]

/-- The classified output of a scan, as run_port_scan builds it, is the
filterMap of the catalog lookup tagged with the risk tier. -/
theorem build_vuln_info_eq (ports : List Nat) :
    build_vuln_info (identify_vulnerable_ports ports) =
      ports.filterMap (fun p =>
        (vulnerable_ports p).map fun sd =>
          (⟨p, sd.1, sd.2, risk_level p, "detected"⟩ : VulnerabilityInfo)) := by
  unfold build_vuln_info identify_vulnerable_ports
  rw [identifyLoop_eq ports []]
  rw [List.nil_append, List.map_filterMap]
  congr 1
  funext p
  cases h : vulnerable_ports p <;> simp [h]

/-- The deliveries of one broadcast pass are the non-faulting connections
in subscription order. -/
theorem broadcastLoop_fst (f : Nat → Bool) :
    ∀ conns : List Nat, (broadcastLoop conns f).1 = conns.filter fun c => ! f c := by
  intro conns
  induction conns with
  | nil => rfl
  | cons c rest ih =>
    cases h : f c <;> simp [broadcastLoop, h, List.filter, ih]

/-- The disconnection list of one broadcast pass is the faulting
connections in subscription order. -/
theorem broadcastLoop_snd (f : Nat → Bool) :
    ∀ conns : List Nat, (broadcastLoop conns f).2 = conns.filter f := by
  intro conns
  induction conns with
  | nil => rfl
  | cons c rest ih =>
    cases h : f c <;> simp [broadcastLoop, h, List.filter, ih]

/-- Disconnecting someone other than the head leaves the head in place. -/
theorem managerDisconnect_cons (l : List Nat) (c d : Nat) (h : d ≠ c) :
    managerDisconnect (c :: l) d = c :: managerDisconnect l d := by
  unfold managerDisconnect
  by_cases hm : d ∈ l
  · rw [if_pos (List.mem_cons_of_mem c hm), if_pos hm, List.erase_cons_tail]
    simp [Ne.symm h]
  · rw [if_neg (by simp [hm, h]), if_neg hm]

/-- Disconnecting a batch not containing the head leaves the head. -/
theorem foldl_managerDisconnect_cons (c : Nat) :
    ∀ (ds l : List Nat), c ∉ ds →
      ds.foldl managerDisconnect (c :: l) = c :: ds.foldl managerDisconnect l := by
  intro ds
  induction ds with
  | nil => intro l _; rfl
  | cons d ds ih =>
    intro l hc
    have hdc : d ≠ c := by
      intro hdc; exact hc (hdc ▸ List.mem_cons_self d ds)
    rw [List.foldl_cons, List.foldl_cons, managerDisconnect_cons l c d hdc]
    exact ih _ (fun hmem => hc (List.mem_cons_of_mem d hmem))

/-- Disconnecting exactly the faulting connections keeps exactly the
non-faulting ones, in order. -/
theorem foldl_managerDisconnect_filter (f : Nat → Bool) :
    ∀ conns : List Nat,
      (conns.filter f).foldl managerDisconnect conns = conns.filter fun c => ! f c := by
  intro conns
  induction conns with
  | nil => rfl
  | cons c rest ih =>
    cases h : f c
    · have hnotin : c ∉ rest.filter f := by
        intro hmem
        rw [List.mem_filter] at hmem
        rw [hmem.2] at h
        exact Bool.noConfusion h
      calc ((c :: rest).filter f).foldl managerDisconnect (c :: rest)
          = (rest.filter f).foldl managerDisconnect (c :: rest) := by
            simp [List.filter, h]
        _ = c :: (rest.filter f).foldl managerDisconnect rest :=
            foldl_managerDisconnect_cons c (rest.filter f) rest hnotin
        _ = c :: rest.filter (fun x => ! f x) := by rw [ih]
        _ = (c :: rest).filter (fun x => ! f x) := by simp [List.filter, h]
    · calc ((c :: rest).filter f).foldl managerDisconnect (c :: rest)
          = (c :: rest.filter f).foldl managerDisconnect (c :: rest) := by
            simp [List.filter, h]
        _ = (rest.filter f).foldl managerDisconnect (managerDisconnect (c :: rest) c) := by
            rw [List.foldl_cons]
        _ = (rest.filter f).foldl managerDisconnect rest := by
            unfold managerDisconnect
            rw [if_pos (List.mem_cons_self c rest), List.erase_cons_head]
        _ = rest.filter (fun x => ! f x) := ih
        _ = (c :: rest).filter (fun x => ! f x) := by simp [List.filter, h]

/-- ConnectionManager.broadcast delivers to, and afterwards retains,
exactly the non-faulting connections in subscription order. -/
theorem managerBroadcast_eq (conns : List Nat) (f : Nat → Bool) :
    managerBroadcast conns f = (conns.filter fun c => ! f c, conns.filter fun c => ! f c) := by
  show (((broadcastLoop conns f).1, (broadcastLoop conns f).2.foldl managerDisconnect conns)) = _
  rw [broadcastLoop_fst, broadcastLoop_snd, foldl_managerDisconnect_filter]

/-! # Claims -/

/-- C2, counterexample: run_nmap_scan does not deduplicate; feeding the
same matching port line twice yields the port twice, so the parsed
sequence is not duplicate-free as the claim states. -/
theorem c2_counterexample :
    parseNmapLines ["22/tcp  open  ssh".toList, "22/tcp  open  ssh".toList] = [22, 22] ∧
    ¬ (parseNmapLines ["22/tcp  open  ssh".toList, "22/tcp  open  ssh".toList]).Nodup :=
  ⟨by decide, by decide⟩

/-- C2 (amended): the scan driver collects exactly the port numbers of the
lines matching the port pattern, one per matching line in line order (so a
repeated port line yields a duplicate), and lines that do not match are
ignored without error; on the specification fixture it parses 22 and 80
and ignores the closed-port line. -/
theorem c2_scan_parse_amended :
    (∀ lines, parseNmapLines lines = lines.filterMap matchPortLine) ∧
    parseNmapLines ["22/tcp  open  ssh".toList, "80/tcp  open  http".toList,
      "1234/tcp closed x".toList] = [22, 80] := by
  constructor
  · intro lines
    simpa [parseNmapLines] using nmapLoop_eq lines []
  · decide

/-- C3, counterexample: a timed-out scan and a successful scan with empty
output both return the empty list, so callers cannot distinguish them, and
the orchestrator reports the successful zero-port scan as a failed
operation rather than with a distinct no-ports-found status. -/
theorem c3_counterexample :
    run_nmap_scan NmapOutcome.timeout = run_nmap_scan (NmapOutcome.success []) ∧
    finalBroadcast (runPortScanTrace "127.0.0.1" (NmapOutcome.success [])) =
      some ⟨"scan_complete", .failed, none, "No open ports found or scan failed", none⟩ :=
  ⟨rfl, by decide⟩

/-- C3 (amended): run_nmap_scan returns the same empty list for a timeout,
a missing tool, and a non-zero exit, and whenever the returned list is
empty — including a successful scan that found no ports — the orchestrator
ends the operation with status failed and the message that conflates the
two cases, so the scan result does not let callers distinguish tool
failure from zero open ports. -/
theorem c3_empty_result_amended :
    run_nmap_scan NmapOutcome.timeout = [] ∧
    run_nmap_scan NmapOutcome.toolMissing = [] ∧
    (∀ stderr, run_nmap_scan (NmapOutcome.exitNonzero stderr) = []) ∧
    (∀ (target : String) (outcome : NmapOutcome), run_nmap_scan outcome = [] →
      finalBroadcast (runPortScanTrace target outcome) =
        some ⟨"scan_complete", .failed, none, "No open ports found or scan failed", none⟩) := by
  refine ⟨rfl, rfl, fun _ => rfl, fun target outcome h => ?_⟩
  simp [runPortScanTrace, h, finalBroadcast, broadcasts, List.filterMap]

/-- C3 witness: the amended theorem applied to a timed-out scan. -/
theorem c3_empty_result_amended_witness :
    finalBroadcast (runPortScanTrace "127.0.0.1" NmapOutcome.timeout) =
      some ⟨"scan_complete", .failed, none, "No open ports found or scan failed", none⟩ :=
  c3_empty_result_amended.2.2.2 "127.0.0.1" NmapOutcome.timeout rfl

/-- C6: for every input port list, classification emits one record per
input port that is a catalog key — carrying that entry's service and
description and a tier computed from the fixed high-risk set — in input
order, with no record for non-catalog ports, hence output no longer than
input; the tier of an emitted record is High exactly when its port is in
the high-risk list and Medium exactly otherwise, and in particular port 21
is High and port 22 is Medium. -/
theorem c6_classifier :
    ∀ ports : List Nat,
      (build_vuln_info (identify_vulnerable_ports ports)).length ≤ ports.length ∧
      build_vuln_info (identify_vulnerable_ports ports) =
        ports.filterMap (fun p =>
          (vulnerable_ports p).map fun sd =>
            (⟨p, sd.1, sd.2, risk_level p, "detected"⟩ : VulnerabilityInfo)) ∧
      (∀ v ∈ build_vuln_info (identify_vulnerable_ports ports),
        (vulnerable_ports v.port).isSome ∧
        (v.risk_level = "High" ↔ v.port ∈ high_risk_ports) ∧
        (v.risk_level = "Medium" ↔ v.port ∉ high_risk_ports)) ∧
      risk_level 21 = "High" ∧ risk_level 22 = "Medium" := by
  intro ports
  refine ⟨?_, build_vuln_info_eq ports, ?_, by decide, by decide⟩
  · rw [build_vuln_info_eq ports]
    exact List.length_filterMap_le _ _
  · intro v hv
    rw [build_vuln_info_eq ports] at hv
    rcases List.mem_filterMap.mp hv with ⟨p, _, hp⟩
    cases h : vulnerable_ports p with
    | none => rw [h] at hp; simp at hp
    | some sd =>
      rw [h] at hp
      simp only [Option.map_some'] at hp
      cases hp.symm
      refine ⟨by simp [h], (risk_level_iff p).1, (risk_level_iff p).2⟩

/-- C6 witness: the classifier theorem applied to the input 21, 22, 9999
and its emitted record for port 21. -/
theorem c6_classifier_witness :
    (vulnerable_ports
      (VulnerabilityInfo.mk 21 "FTP" "File Transfer Protocol - often unsecured" "High" "detected").port).isSome ∧
    ((VulnerabilityInfo.mk 21 "FTP" "File Transfer Protocol - often unsecured" "High" "detected").risk_level = "High" ↔
      (VulnerabilityInfo.mk 21 "FTP" "File Transfer Protocol - often unsecured" "High" "detected").port ∈ high_risk_ports) ∧
    ((VulnerabilityInfo.mk 21 "FTP" "File Transfer Protocol - often unsecured" "High" "detected").risk_level = "Medium" ↔
      (VulnerabilityInfo.mk 21 "FTP" "File Transfer Protocol - often unsecured" "High" "detected").port ∉ high_risk_ports) :=
  (c6_classifier [21, 22, 9999]).2.2.1
    ⟨21, "FTP", "File Transfer Protocol - often unsecured", "High", "detected"⟩ (by decide)

/-- C7: evaluation of the bind tactic and of close_port_linux at the
decisive inputs; the second conjunct records the code bug: an
address-already-in-use bind fault on Linux carries errno 98, which the
tactic reports as failure because only the Windows code 10048 is
recognized, contradicting the claimed address-in-use-is-success behavior;
the remaining conjuncts confirm that the bind tactic succeeds on a free
port and that a Close remediation on an idle port without privilege
succeeds through the bind tactic alone. -/
theorem c7_bind_addrinuse_bug :
    bind_port_to_prevent_usage (BindOutcome.err 98) = false ∧
    bind_port_to_prevent_usage (BindOutcome.err 10048) = true ∧
    bind_port_to_prevent_usage BindOutcome.ok = true ∧
    close_port_linux 8080 "" idleCloseEnv =
      (true, "Port 8080 closed using: bound port to prevent usage") :=
  ⟨rfl, rfl, rfl, rfl⟩

/-- C8: rollback on an unknown operation id yields the not-found reply,
rollback on an operation whose status is not failed is rejected as an
invalid transition, and rollback on a failed operation is accepted and
schedules the auto action for the requested port and the stored service
under the freshly generated operation id. -/
theorem c8_rollback :
    (∀ (r : Registry) (opId : String) (port : Nat) (newId : String),
      get_operation r opId = none →
      rollback_operation r opId port newId = RollbackResult.notFound) ∧
    (∀ (r : Registry) (opId : String) (port : Nat) (newId : String) (op : Operation),
      get_operation r opId = some op → op.opStatus ≠ Status.failed →
      rollback_operation r opId port newId = RollbackResult.invalidTransition) ∧
    (∀ (r : Registry) (opId : String) (port : Nat) (newId : String) (op : Operation),
      get_operation r opId = some op → op.opStatus = Status.failed →
      rollback_operation r opId port newId =
        RollbackResult.accepted newId port (op.service.getD "") "auto") := by
  refine ⟨fun r opId port newId h => ?_, fun r opId port newId op h hs => ?_,
    fun r opId port newId op h hs => ?_⟩
  · unfold rollback_operation
    rw [show r opId = none from h]
  · unfold rollback_operation
    rw [show r opId = some op from h]
    simp [hs]
  · unfold rollback_operation
    rw [show r opId = some op from h]
    simp [hs]

/-- C8 witness: the rollback theorem applied to a concrete registry with a
failed and a completed operation. -/
theorem c8_rollback_witness :
    rollback_operation regRb "missing" 22 "new1" = RollbackResult.notFound ∧
    rollback_operation regRb "c" 80 "new2" = RollbackResult.invalidTransition ∧
    rollback_operation regRb "f" 22 "new3" = RollbackResult.accepted "new3" 22 "SSH" "auto" :=
  ⟨c8_rollback.1 regRb "missing" 22 "new1" rfl,
   c8_rollback.2.1 regRb "c" 80 "new2" ⟨.completed, 100, "done", some "HTTP"⟩ rfl (by decide),
   c8_rollback.2.2 regRb "f" 22 "new3" ⟨.failed, 0, "Action failed", some "SSH"⟩ rfl rfl⟩

/-- C10: deleting an operation id present in the registry succeeds, a
subsequent get on that id yields not-found, and every other entry is
unchanged; deleting an absent id yields not-found. -/
theorem c10_registry_delete :
    (∀ (r : Registry) (id : String) (op : Operation), get_operation r id = some op →
      ∃ r', delete_operation r id = some r' ∧ get_operation r' id = none ∧
        ∀ k, k ≠ id → get_operation r' k = get_operation r k) ∧
    (∀ (r : Registry) (id : String), get_operation r id = none →
      delete_operation r id = none) := by
  constructor
  · intro r id op h
    refine ⟨fun k => if k = id then none else r k, ?_, ?_, ?_⟩
    · unfold delete_operation
      rw [show r id = some op from h]
    · simp [get_operation]
    · intro k hk
      simp [get_operation, hk]
  · intro r id h
    unfold delete_operation
    rw [show r id = none from h]

/-- C10 witness: the delete theorem applied to a one-entry registry, both
on its present id and on a missing id. -/
theorem c10_registry_delete_witness :
    (∃ r', delete_operation regSingle "a" = some r' ∧ get_operation r' "a" = none ∧
      ∀ k, k ≠ "a" → get_operation r' k = get_operation regSingle k) ∧
    delete_operation regSingle "missing" = none :=
  ⟨c10_registry_delete.1 regSingle "a" ⟨.completed, 100, "done", none⟩ rfl,
   c10_registry_delete.2 regSingle "missing" rfl⟩

/-- C5: for every port, service and environment, the auto action invokes
the update call and then the close call unconditionally — both appear in
its call list for every environment, in that order — and its final event
carries success equal to the disjunction of the two call results, status
completed exactly when that disjunction holds, and the combined message
listing both outcomes. -/
theorem c5_auto_action :
    ∀ (port : Nat) (service : String) (env : ActionEnv),
      calls (runSecurityActionTrace port service "auto" env) =
        [("apply_security_update", [Nat.repr port, service]),
         ("close_vulnerable_port", [Nat.repr port, service])] ∧
      finalBroadcast (runSecurityActionTrace port service "auto" env) =
        some ⟨"action_complete",
          (if env.updateResult.1 || env.closeResult.1 then Status.completed else Status.failed),
          some (if env.updateResult.1 || env.closeResult.1 then 100 else 0),
          "Update: " ++ env.updateResult.2 ++ ", Close: " ++ env.closeResult.2,
          some (env.updateResult.1 || env.closeResult.1)⟩ := by
  intro port service env
  exact ⟨rfl, rfl⟩

/-- C1, counterexample: for an auto action whose update and close calls
both fail, the progress values written to the registry or broadcast are
0, 0, 20, 60, 0, 0 — the final event resets progress to 0 after the
intermediate values, so the progress sequence of the operation is not
non-decreasing as the claim states. -/
theorem c1_counterexample :
    mergedProgress (runSecurityActionTrace 22 "SSH" "auto" envBothFail) = [0, 0, 20, 60, 0, 0] ∧
    nonDecreasing (mergedProgress (runSecurityActionTrace 22 "SSH" "auto" envBothFail)) = false :=
  ⟨by decide, by decide⟩

/-- C1 (amended): for every operation the progress values written to the
registry are non-decreasing and the final event has status completed or
failed; the combined registry-and-broadcast progress sequence is
non-decreasing for every scan and for every action whose final success
flag is true, but a failed action resets the broadcast progress to 0. -/
theorem c1_progress_amended :
    (∀ (target : String) (outcome : NmapOutcome),
      nonDecreasing (regProgressWrites (runPortScanTrace target outcome)) = true ∧
      nonDecreasing (mergedProgress (runPortScanTrace target outcome)) = true ∧
      (∀ e, finalBroadcast (runPortScanTrace target outcome) = some e →
        e.status = Status.completed ∨ e.status = Status.failed)) ∧
    (∀ (port : Nat) (service action : String) (env : ActionEnv),
      nonDecreasing (regProgressWrites (runSecurityActionTrace port service action env)) = true ∧
      (∀ e, finalBroadcast (runSecurityActionTrace port service action env) = some e →
        (e.status = Status.completed ∨ e.status = Status.failed) ∧
        (e.success = some true →
          nonDecreasing (mergedProgress (runSecurityActionTrace port service action env)) = true))) := by
  constructor
  · intro target outcome
    cases h : run_nmap_scan outcome with
    | nil =>
      refine ⟨by simp [runPortScanTrace, h, regProgressWrites, nonDecreasing],
              by simp [runPortScanTrace, h, mergedProgress, nonDecreasing], ?_⟩
      intro e he
      have hf : finalBroadcast (runPortScanTrace target outcome) =
          some ⟨"scan_complete", .failed, none, "No open ports found or scan failed", none⟩ := by
        simp [runPortScanTrace, h, finalBroadcast, broadcasts]
      rw [hf] at he
      injection he with he
      rw [← he]
      right; rfl
    | cons p ps =>
      refine ⟨by simp [runPortScanTrace, h, regProgressWrites, nonDecreasing],
              by simp [runPortScanTrace, h, mergedProgress, nonDecreasing], ?_⟩
      intro e he
      have hf : finalBroadcast (runPortScanTrace target outcome) =
          some ⟨"scan_complete", .completed, some 100,
            "Scan completed. Found " ++
              Nat.repr (build_vuln_info (identify_vulnerable_ports (p :: ps))).length ++
              " vulnerable ports.", none⟩ := by
        simp [runPortScanTrace, h, finalBroadcast, broadcasts]
      rw [hf] at he
      injection he with he
      rw [← he]
      left; rfl
  · intro port service action env
    by_cases h1 : action = "update"
    · subst h1
      have h1r : regProgressWrites (runSecurityActionTrace port service "update" env) =
          [0, if env.updateResult.1 then 100 else 0] := rfl
      have hfb : finalBroadcast (runSecurityActionTrace port service "update" env) =
          some ⟨"action_complete",
            (if env.updateResult.1 then Status.completed else Status.failed),
            some (if env.updateResult.1 then 100 else 0),
            env.updateResult.2, some env.updateResult.1⟩ := rfl
      have hmp : mergedProgress (runSecurityActionTrace port service "update" env) =
          [0, 0, 30, if env.updateResult.1 then 100 else 0,
            if env.updateResult.1 then 100 else 0] := rfl
      refine ⟨?_, ?_⟩
      · rw [h1r]; cases env.updateResult.1 <;> rfl
      · intro e he
        rw [hfb] at he
        injection he with he
        rw [← he]
        constructor
        · cases env.updateResult.1
          · right; rfl
          · left; rfl
        · intro hs
          have hu : env.updateResult.1 = true := by
            have hss : (some env.updateResult.1 : Option Bool) = some true := hs
            injection hss
          rw [hmp, hu]
          rfl
    · by_cases h2 : action = "close"
      · subst h2
        have h1r : regProgressWrites (runSecurityActionTrace port service "close" env) =
            [0, if env.closeResult.1 then 100 else 0] := rfl
        have hfb : finalBroadcast (runSecurityActionTrace port service "close" env) =
            some ⟨"action_complete",
              (if env.closeResult.1 then Status.completed else Status.failed),
              some (if env.closeResult.1 then 100 else 0),
              env.closeResult.2, some env.closeResult.1⟩ := rfl
        have hmp : mergedProgress (runSecurityActionTrace port service "close" env) =
            [0, 0, 30, if env.closeResult.1 then 100 else 0,
              if env.closeResult.1 then 100 else 0] := rfl
        refine ⟨?_, ?_⟩
        · rw [h1r]; cases env.closeResult.1 <;> rfl
        · intro e he
          rw [hfb] at he
          injection he with he
          rw [← he]
          constructor
          · cases env.closeResult.1
            · right; rfl
            · left; rfl
          · intro hs
            have hu : env.closeResult.1 = true := by
              have hss : (some env.closeResult.1 : Option Bool) = some true := hs
              injection hss
            rw [hmp, hu]
            rfl
      · by_cases h3 : action = "auto"
        · subst h3
          have h1r : regProgressWrites (runSecurityActionTrace port service "auto" env) =
              [0, if env.updateResult.1 || env.closeResult.1 then 100 else 0] := rfl
          have hfb : finalBroadcast (runSecurityActionTrace port service "auto" env) =
              some ⟨"action_complete",
                (if env.updateResult.1 || env.closeResult.1 then Status.completed else Status.failed),
                some (if env.updateResult.1 || env.closeResult.1 then 100 else 0),
                "Update: " ++ env.updateResult.2 ++ ", Close: " ++ env.closeResult.2,
                some (env.updateResult.1 || env.closeResult.1)⟩ := rfl
          have hmp : mergedProgress (runSecurityActionTrace port service "auto" env) =
              [0, 0, 20, 60, if env.updateResult.1 || env.closeResult.1 then 100 else 0,
                if env.updateResult.1 || env.closeResult.1 then 100 else 0] := rfl
          refine ⟨?_, ?_⟩
          · rw [h1r]; cases env.updateResult.1 || env.closeResult.1 <;> rfl
          · intro e he
            rw [hfb] at he
            injection he with he
            rw [← he]
            constructor
            · cases env.updateResult.1 || env.closeResult.1
              · right; rfl
              · left; rfl
            · intro hs
              have hu : (env.updateResult.1 || env.closeResult.1) = true := by
                have hss : (some (env.updateResult.1 || env.closeResult.1) : Option Bool) =
                    some true := hs
                injection hss
              rw [hmp, hu]
              rfl
        · have hmid : actionMiddle port service action env = ([], false, "") := by
            simp [actionMiddle, h1, h2, h3]
          refine ⟨?_, ?_⟩
          · simp [runSecurityActionTrace, hmid, regProgressWrites, nonDecreasing]
          · intro e he
            have hfb : finalBroadcast (runSecurityActionTrace port service action env) =
                some ⟨"action_complete", Status.failed, some 0, "", some false⟩ := by
              simp [runSecurityActionTrace, hmid, finalBroadcast, broadcasts]
            rw [hfb] at he
            injection he with he
            rw [← he]
            exact ⟨Or.inr rfl, fun hs => by simp at hs⟩

/-- C1 witness: the amended theorem applied to a timed-out scan and to a
successful update action. -/
theorem c1_progress_amended_witness :
    nonDecreasing (mergedProgress (runPortScanTrace "127.0.0.1" NmapOutcome.timeout)) = true ∧
    nonDecreasing (mergedProgress (runSecurityActionTrace 22 "SSH" "update" envUpdateOk)) = true :=
  ⟨(c1_progress_amended.1 "127.0.0.1" NmapOutcome.timeout).2.1,
   ((c1_progress_amended.2 22 "SSH" "update" envUpdateOk).2
      ⟨"action_complete", Status.completed, some 100, "update ok", some true⟩ rfl).2 rfl⟩

/-- C4, counterexample: the progress-25 scan broadcast has no preceding
registry update — the registry still reads progress 0 when it is sent —
so a broadcast event does reference a state more advanced than a
concurrent registry get, contrary to the claim. -/
theorem c4_counterexample :
    broadcastNeverAhead (runPortScanTrace "127.0.0.1" NmapOutcome.timeout) = false := by
  decide

/-- C4 (amended): every registry update is immediately followed by the
broadcast event mirroring its status, progress, message and success flag —
the registry write always precedes its corresponding broadcast — but the
intermediate progress-only broadcasts (25 and 50 for scans, 20, 30 and 60
for actions) have no registry counterpart, so such an event can be ahead
of a concurrent registry read. -/
theorem c4_registry_first_amended :
    (∀ (target : String) (outcome : NmapOutcome),
      regMirrored (runPortScanTrace target outcome)) ∧
    (∀ (port : Nat) (service action : String) (env : ActionEnv),
      regMirrored (runSecurityActionTrace port service action env)) := by
  constructor
  · intro target outcome
    cases h : run_nmap_scan outcome with
    | nil => simp [runPortScanTrace, h, regMirrored]
    | cons p ps => simp [runPortScanTrace, h, regMirrored]
  · intro port service action env
    by_cases h1 : action = "update"
    · subst h1; simp [runSecurityActionTrace, actionMiddle, regMirrored]
    · by_cases h2 : action = "close"
      · subst h2; simp [runSecurityActionTrace, actionMiddle, regMirrored]
      · by_cases h3 : action = "auto"
        · subst h3; simp [runSecurityActionTrace, actionMiddle, regMirrored]
        · simp [runSecurityActionTrace, actionMiddle, regMirrored, h1, h2, h3]

/-- C9: one broadcast pass delivers the message to exactly the
non-faulting connections, in subscription order, and afterwards retains
exactly those connections — a fault for one observer never prevents
delivery to the others, and each faulting observer is removed; moreover an
observer that is subscribed and never faults receives every published
message in publish order across a sequence of broadcasts. -/
theorem c9_broadcast_fanout :
    (∀ (conns : List Nat) (faulty : Nat → Bool),
      (managerBroadcast conns faulty).1 = conns.filter (fun c => ! faulty c) ∧
      (managerBroadcast conns faulty).2 = conns.filter (fun c => ! faulty c)) ∧
    (∀ (msgs : List String) (conns : List Nat) (faulty : String → Nat → Bool) (o : Nat),
      o ∈ conns → (∀ m, faulty m o = false) →
      deliveredTo o (broadcastSeq msgs conns faulty).1 = msgs) := by
  constructor
  · intro conns faulty
    rw [managerBroadcast_eq]
    exact ⟨rfl, rfl⟩
  · intro msgs
    induction msgs with
    | nil => intro conns faulty o _ _; rfl
    | cons m ms ih =>
      intro conns faulty o ho hf
      have hmem : o ∈ conns.filter fun c => ! faulty m c := by
        rw [List.mem_filter]
        exact ⟨ho, by rw [hf m]; rfl⟩
      simp only [broadcastSeq, managerBroadcast_eq, deliveredTo, List.filterMap_cons]
      rw [if_pos hmem]
      have hrec := ih (conns.filter fun c => ! faulty m c) faulty o hmem hf
      unfold deliveredTo at hrec
      rw [hrec]

/-- C9 witness: the fan-out theorem applied to three observers of which
the second faults on every message. -/
theorem c9_broadcast_fanout_witness :
    deliveredTo 1 (broadcastSeq ["a", "b"] [1, 2, 3] (fun _ c => decide (c = 2))).1 = ["a", "b"] :=
  c9_broadcast_fanout.2 ["a", "b"] [1, 2, 3] (fun _ c => decide (c = 2)) 1 (by decide)
    (fun _ => rfl)

end PortScanner
